import Mathlib

/-!
Verification of the targon-jugo specification against the source.

The development shallowly embeds the two core components of the repository:

* the Epistula request verifier (`src/epistula.py`, `verify_signature`),
  including Python's `json.dumps(body, separators=(',', ':'))`
  canonicalization that it uses to hash structured bodies; and
* the leased bucket cache (`src/jugo.py`, endpoint `exgest`, and the
  watermark-based variant `src/exgestor/exgestor.py`,
  `get_cached_records`).

External collaborators (the substrate-interface cryptography library, the
MySQL data store, Python's `json.loads`) are modelled as explicit
parameters so that theorems quantify over every possible behaviour of the
collaborator, while counterexamples instantiate them with one concrete,
legitimate behaviour.
-/

/-! ## Python JSON values and `json.dumps(body, separators=(',', ':'))`

`Json` models the Python values that can appear in a request body handed
to `json.dumps`: `None`, booleans, integers, strings, lists and dicts.
Dicts are association lists in insertion order, which is exactly the
order `json.dumps` serializes keys in (CPython preserves dict insertion
order and `verify_signature` does not pass `sort_keys=True`).
Floats are out of scope (no claim exercises them). -/

inductive Json where
  | null
  | bool (b : Bool)
  | num (n : Int)
  | str (s : String)
  | arr (xs : List Json)
  | obj (kvs : List (String × Json))
deriving Repr

/-- Hex digit used by `\uXXXX` escapes, lower case as CPython emits it. -/
def hexChar (n : Nat) : Char :=
  if n < 10 then Char.ofNat (48 + n) else Char.ofNat (87 + n)

/-- Four-digit lowercase hex of a codepoint below 0x10000. -/
def hex4 (n : Nat) : String :=
  String.mk [hexChar (n / 4096 % 16), hexChar (n / 256 % 16),
             hexChar (n / 16 % 16), hexChar (n % 16)]

/-- Escape one character the way CPython's `json.dumps` (default
`ensure_ascii=True`) does: `"` and `\` get a backslash, the common
control characters get their two-character escapes, all other characters
below 0x20 or above 0x7e become `\uXXXX` (with a surrogate pair above
0xffff). -/
def escapeChar (c : Char) : String :=
  if c = '"' then "\\\""
  else if c = '\\' then "\\\\"
  else if c = '\n' then "\\n"
  else if c = '\t' then "\\t"
  else if c = '\r' then "\\r"
  else if c = Char.ofNat 8 then "\\b"
  else if c = Char.ofNat 12 then "\\f"
  else if c.toNat < 32 ∨ c.toNat > 126 then
    if c.toNat < 65536 then "\\u" ++ hex4 c.toNat
    else
      let v := c.toNat - 65536
      "\\u" ++ hex4 (55296 + v / 1024) ++ "\\u" ++ hex4 (56320 + v % 1024)
  else String.singleton c

/-- CPython's JSON string serialization: quotes around the escaped chars. -/
def quoteStr (s : String) : String :=
  "\"" ++ String.join (s.toList.map escapeChar) ++ "\""

mutual

/-- `json.dumps(v, separators=(',', ':'))`: the exact serialization used
by `verify_signature` (src/epistula.py line 31) before hashing a
structured body.  Separators carry no whitespace; object keys are
emitted in dict insertion order (no `sort_keys`). -/
def dumps : Json → String
  | .null => "null"
  | .bool b => if b then "true" else "false"
  | .num n => toString n
  | .str s => quoteStr s
  | .arr xs => "[" ++ dumpsList xs ++ "]"
  | .obj kvs => "\x7b" ++ dumpsObj kvs ++ "\x7d"

/-- Comma-joined serialization of the elements of a Python list. -/
def dumpsList : List Json → String
  | [] => ""
  | [x] => dumps x
  | x :: y :: xs => dumps x ++ "," ++ dumpsList (y :: xs)

/-- Comma-joined serialization of the `"key":value` pairs of a dict. -/
def dumpsObj : List (String × Json) → String
  | [] => ""
  | [(k, v)] => quoteStr k ++ ":" ++ dumps v
  | (k, v) :: p :: kvs => quoteStr k ++ ":" ++ dumps v ++ "," ++ dumpsObj (p :: kvs)

end

mutual

/-- Python `==` on JSON values as the spec's "structurally equal": dict
comparison ignores key order (same key set, `==`-equal values per key);
lists compare pointwise; `True == 1` and `False == 0` hold as they do in
Python (bool is a subclass of int). -/
def structEq : Json → Json → Bool
  | .null, .null => true
  | .bool a, .bool b => a == b
  | .bool a, .num n => (if a then (1 : Int) else 0) == n
  | .num n, .bool a => n == (if a then (1 : Int) else 0)
  | .num a, .num b => a == b
  | .str a, .str b => a == b
  | .arr xs, .arr ys => structEqList xs ys
  | .obj a, .obj b =>
      structEqDict a b && b.all (fun kv => (a.lookup kv.1).isSome)
  | _, _ => false
termination_by x y => sizeOf x + sizeOf y
decreasing_by all_goals simp_wf; all_goals omega

/-- Pointwise `==` on lists. -/
def structEqList : List Json → List Json → Bool
  | [], [] => true
  | x :: xs, y :: ys => structEq x y && structEqList xs ys
  | _, _ => false
termination_by xs ys => sizeOf xs + sizeOf ys
decreasing_by all_goals simp_wf; all_goals omega

/-- One inclusion of Python dict equality: every key of `a` is present
in `b` with an `==`-equal value (first occurrence; real dicts have
unique keys).  The other inclusion only needs key presence. -/
def structEqDict : List (String × Json) → List (String × Json) → Bool
  | [], _ => true
  | (k, v) :: a, b => findKeyEq k v b && structEqDict a b
termination_by a b => sizeOf a + sizeOf b
decreasing_by all_goals simp_wf; all_goals omega

/-- Look `k` up in the dict and compare its value with `v`. -/
def findKeyEq (k : String) (v : Json) : List (String × Json) → Bool
  | [] => false
  | (k', w) :: b => if k = k' then structEq v w else findKeyEq k v b
termination_by b => sizeOf v + sizeOf b
decreasing_by all_goals simp_wf; all_goals omega

end

mutual

/-- Two values have the same ordered shape: equal constructors, lists of
equal length pointwise, and dicts with the *identical key sequence*
(same keys, same order) with same-shaped values.  This is the
order-preserving restriction of "reorder". -/
def sameOrder : Json → Json → Bool
  | .null, .null => true
  | .bool _, .bool _ => true
  | .num _, .num _ => true
  | .str _, .str _ => true
  | .arr xs, .arr ys => sameOrderList xs ys
  | .obj a, .obj b => sameOrderDict a b
  | _, _ => false

/-- Pointwise `sameOrder` on lists. -/
def sameOrderList : List Json → List Json → Bool
  | [], [] => true
  | x :: xs, y :: ys => sameOrder x y && sameOrderList xs ys
  | _, _ => false

/-- Pointwise `sameOrder` on dict entries: key sequences identical. -/
def sameOrderDict : List (String × Json) → List (String × Json) → Bool
  | [], [] => true
  | (k, v) :: a, (k', v') :: b => k == k' && sameOrder v v' && sameOrderDict a b
  | _, _ => false

end

mutual

/-- Every dict inside the value has pairwise-distinct keys — true of
every value produced by parsing Python data, since dicts cannot hold a
key twice. -/
def uniqKeys : Json → Bool
  | .null | .bool _ | .num _ | .str _ => true
  | .arr xs => uniqKeysList xs
  | .obj kvs => ((kvs.map Prod.fst).Nodup : Bool) && uniqKeysKVs kvs

/-- `uniqKeys` over a list of values. -/
def uniqKeysList : List Json → Bool
  | [] => true
  | x :: xs => uniqKeys x && uniqKeysList xs

/-- `uniqKeys` over dict values. -/
def uniqKeysKVs : List (String × Json) → Bool
  | [] => true
  | (_, v) :: kvs => uniqKeys v && uniqKeysKVs kvs

end

/-- UTF-8 bytes of a string, as Python's `str.encode("utf-8")`. -/
def utf8Bytes (s : String) : List Nat :=
  s.toUTF8.toList.map (·.toNat)

example : dumps (.obj [("a", .num 1), ("b", .num 2)]) = "\x7b\"a\":1,\"b\":2\x7d" := by
  decide

example : dumps (.arr [.null, .bool true, .str "x y"]) = "[null,true,\"x y\"]" := by
  decide

/-! ## The Epistula verifier (`src/epistula.py`, `verify_signature`)

`PyVal` models the dynamically typed Python arguments actually reaching
`verify_signature`: the HTTP handlers pass `request.headers.get(...)`
values, which are strings when the header is present and `None` when it
is absent, and the body is `bytes` (or, per the type annotation, a dict
or list).  `vbool` counts as an `int` for `isinstance(timestamp, int)`
because Python's `bool` is a subclass of `int`.

The substrate-interface library is external to the repository; the
`Substrate` structure models the two operations `verify_signature` uses:
`keypairOk s` tells whether `Keypair(ss58_address=s)` constructs
successfully (it raises `ValueError` on a malformed ss58 address), and
`verify kp msg sig` is the boolean result of `keypair.verify(msg, sig)`
(modelled as total; `sig` is the str-or-bytes value the source passes).
Theorems quantify over every `Substrate`; counterexamples pick one
concrete, legitimate behaviour. -/

inductive PyVal where
  | vnone
  | vstr (s : String)
  | vint (n : Int)
  | vbool (b : Bool)
  | vbytes (bs : List Nat)
  | vdict (kvs : List (String × Json))
  | vlist (xs : List Json)
deriving Repr

/-- The exceptions the embedded `verify_signature` can propagate. -/
inductive EpExn where
  /-- `Keypair(ss58_address=signed_by)` raised (malformed address). -/
  | keypairValueError
  /-- `bytes.fromhex(signature[2:])` raised (not valid hex). -/
  | hexValueError
deriving DecidableEq, Repr

/-- The signature value handed to `keypair.verify`: the original string
when it has no `0x` prefix, else the decoded bytes. -/
inductive SigVal where
  | str (s : String)
  | bytes (bs : List Nat)
deriving DecidableEq, Repr

/-- External cryptography capability used by `verify_signature`. -/
structure Substrate where
  keypairOk : String → Bool
  verify : String → String → SigVal → Bool

/-- Numeric value of one hex digit, accepting both cases. -/
def hexDigitVal (c : Char) : Option Nat :=
  if '0' ≤ c ∧ c ≤ '9' then some (c.toNat - 48)
  else if 'a' ≤ c ∧ c ≤ 'f' then some (c.toNat - 87)
  else if 'A' ≤ c ∧ c ≤ 'F' then some (c.toNat - 55)
  else none

/-- Decode pairs of hex digits into bytes; `none` on an odd count or a
non-hex character — the cases where `bytes.fromhex` raises. -/
def hexPairs : List Char → Option (List Nat)
  | [] => some []
  | [_] => none
  | c1 :: c2 :: rest =>
    match hexDigitVal c1, hexDigitVal c2, hexPairs rest with
    | some a, some b, some t => some ((16 * a + b) :: t)
    | _, _, _ => none

/-- `signature.startswith('0x')`, on the character level so that it
evaluates on concrete inputs. -/
def startsWith0x (s : String) : Bool :=
  match s.toList with
  | '0' :: 'x' :: _ => true
  | _ => false

/-- The Python slice `signature[2:]`. -/
def pySliceFrom2 (s : String) : String :=
  String.mk (s.toList.drop 2)

/-- Python's `bytes.fromhex`, which skips ASCII spaces between bytes. -/
def bytesFromHex (s : String) : Option (List Nat) :=
  hexPairs (s.toList.filter (· ≠ ' '))

/-- `isinstance(timestamp, int)` plus the integer value: Python `bool`
is a subclass of `int` with values 1 and 0. -/
def PyVal.asInt : PyVal → Option Int
  | .vint n => some n
  | .vbool b => some (if b then 1 else 0)
  | _ => none

/-- `isinstance(body, (bytes, dict, list))` plus the two hashing shapes
of the body: raw bytes, or a structured value to be `json.dumps`-ed. -/
def PyVal.asBody : PyVal → Option (List Nat ⊕ Json)
  | .vbytes bs => some (.inl bs)
  | .vdict kvs => some (.inr (.obj kvs))
  | .vlist xs => some (.inr (.arr xs))
  | _ => none

/-- `ALLOWED_DELTA_MS` from src/epistula.py line 23. -/
def ALLOWED_DELTA_MS : Int := 8000

/-- The f-string `"Request is too stale: {timestamp + ALLOWED_DELTA_MS} < {now}"`. -/
def staleReason (timestamp now : Int) : String :=
  "Request is too stale: " ++ toString (timestamp + ALLOWED_DELTA_MS) ++ " < " ++ toString now

/-- Lines 28-51 of src/epistula.py, the part of `verify_signature`
reached once the type checks, keypair construction and freshness check
have passed: hash the body (raw bytes directly, a structured value
through `json.dumps(..., separators=(',', ':')).encode("utf-8")`),
assemble the canonical message
`f"{req_hash}.{uuid}.{timestamp}.{signed_for or ''}"`, decode a
`0x`-prefixed signature with `bytes.fromhex` (propagating its
`ValueError`), and call `keypair.verify`, mapping `False` to
`"Signature Mismatch"` and `True` to no error.  Split into its own
definition purely to let theorems name this stage. -/
def verifyCrypto (lib : Substrate) (sha256hex : List Nat → String)
    (sig : String) (bv : List Nat ⊕ Json) (ts : Int) (u sb : String)
    (signed_for : Option String) : Except EpExn (Option String) :=
  let req_hash :=
    match bv with
    | .inl bs => sha256hex bs
    | .inr j => sha256hex (utf8Bytes (dumps j))
  let message :=
    req_hash ++ "." ++ u ++ "." ++ toString ts ++ "." ++ signed_for.getD ""
  if startsWith0x sig then
    match bytesFromHex (pySliceFrom2 sig) with
    | none => .error .hexValueError
    | some sigBytes =>
      if lib.verify sb message (.bytes sigBytes) then .ok none
      else .ok (some "Signature Mismatch")
  else
    if lib.verify sb message (.str sig) then .ok none
    else .ok (some "Signature Mismatch")

/-- Shallow embedding of `verify_signature` (src/epistula.py lines
9-55), faithful to the source's order of checks:

1. `isinstance` checks on signature, timestamp, signed_by, uuid, body
   (lines 12-21), each returning its reason string;
2. `keypair = Keypair(ss58_address=signed_by)` (line 24) — note this
   runs *before* the staleness check and propagates a `ValueError` on a
   malformed address;
3. the staleness check (lines 25-26);
4. body hashing — raw bytes directly, otherwise
   `json.dumps(body, separators=(',', ':')).encode("utf-8")` (lines
   28-31), through the ambient hash parameter `sha256hex`;
5. message assembly `f"{req_hash}.{uuid}.{timestamp}.{signed_for or ''}"`
   (line 33);
6. `bytes.fromhex` decoding of a `0x`-prefixed signature (lines 41-42),
   propagating a `ValueError` on bad hex;
7. `keypair.verify(message, signature)` (line 51), returning
   `"Signature Mismatch"` on `False` and `None` on `True`.

`print` calls are side-effect free and elided.  The message is kept as
a `String`; line 46's `message.encode()` is the injective UTF-8
encoding and is absorbed into the `Substrate.verify` parameter. -/
def verify_signature (lib : Substrate) (sha256hex : List Nat → String)
    (signature body timestamp uuid signed_by : PyVal) (now : Int)
    (signed_for : Option String := none) : Except EpExn (Option String) :=
  match signature with
  | .vstr sig =>
    match timestamp.asInt with
    | some ts =>
      match signed_by with
      | .vstr sb =>
        match uuid with
        | .vstr u =>
          match body.asBody with
          | some bv =>
            if lib.keypairOk sb = false then .error .keypairValueError
            else if ts + ALLOWED_DELTA_MS < now then .ok (some (staleReason ts now))
            else verifyCrypto lib sha256hex sig bv ts u sb signed_for
          | none => .ok (some "Body is not of type bytes, dict, or list")
        | _ => .ok (some "Invalid uuid")
      | _ => .ok (some "Invalid Sender key")
    | none => .ok (some "Invalid Timestamp")
  | _ => .ok (some "Invalid Signature")

/-! ## The leased bucket cache (`src/jugo.py`, endpoint `exgest`)

The data store is the `request` table of the hub database.  A `Rec`
carries the columns that influence the endpoint's behaviour: the
monotonically increasing primary key `id`, the category tag `model`,
the JSON-text payloads `response` and `request`, and the `scored` flag.
The remaining selected columns (`uid`, `hotkey`, `coldkey`, `endpoint`,
`success`, `total_time`, `time_to_first_token`, `response_tokens`) are
opaque payload carried through unchanged and are elided.

`DB` packages the store together with the externally-determined failure
behaviour of the two SQL statements (`selectOk`, `updateOk`) and
Python's `json.loads` (`parse`, a parameter because the payload texts
come from outside the repository).  `selectCount`/`updateCount`
instrument how many SELECT/UPDATE statements the endpoint has issued. -/

structure Rec where
  id : Nat
  model : String
  response : String
  request : String
  scored : Bool
deriving DecidableEq, Repr

/-- A record after the decode loop replaced `response` and `request`
with their `json.loads` values. -/
structure RecOut where
  id : Nat
  model : String
  response : Json
  request : Json
deriving Repr

structure DB where
  store : List Rec
  selectOk : Bool
  updateOk : Bool
  parse : String → Option Json
  selectCount : Nat
  updateCount : Nat

/-- Insert into a list kept in decreasing `id` order, placing new ids
after equal ones (stable). -/
def insertDescById (r : Rec) : List Rec → List Rec
  | [] => [r]
  | x :: xs => if r.id ≤ x.id then x :: insertDescById r xs else r :: x :: xs

/-- `ORDER BY id DESC`. -/
def sortDescById (l : List Rec) : List Rec :=
  l.foldr insertDescById []

/-- `SELECT ... FROM request WHERE scored = false ORDER BY id DESC
LIMIT 100` (src/jugo.py lines 476-484). -/
def selectUnscored (store : List Rec) : List Rec :=
  (sortDescById (store.filter (fun r => r.scored = false))).take 100

/-- `UPDATE request SET scored = true WHERE id IN (...)`
(src/jugo.py lines 493-500). -/
def markScored (store : List Rec) (ids : List Nat) : List Rec :=
  store.map (fun r => if r.id ∈ ids then { r with scored := true } else r)

/-- The decode loop (src/jugo.py lines 505-507): `json.loads` both
payloads of one record; `none` models the raised `JSONDecodeError`. -/
def decodeRec (parse : String → Option Json) (r : Rec) : Option RecOut :=
  match parse r.response, parse r.request with
  | some resp, some req => some ⟨r.id, r.model, resp, req⟩
  | _, _ => none

/-- Decode records in fetch order, stopping at the first failure. -/
def decodeRecords (parse : String → Option Json) : List Rec → Option (List RecOut)
  | [] => some []
  | r :: rs =>
    match decodeRec parse r with
    | none => none
    | some o =>
      match decodeRecords parse rs with
      | none => none
      | some os => some (o :: os)

/-- Append one decoded record to its model's list inside the `models`
dict, creating the key on first appearance (src/jugo.py lines 510-513):
key order is first-appearance order, per-key record order is fetch
order. -/
def addToModels (acc : List (String × List RecOut)) (r : RecOut) :
    List (String × List RecOut) :=
  match acc with
  | [] => [(r.model, [r])]
  | (k, rs) :: rest =>
    if k = r.model then (k, rs ++ [r]) :: rest else (k, rs) :: addToModels rest r

/-- The grouping loop building `models` / `model_buckets`
(src/jugo.py lines 503-516). -/
def groupByModel (outs : List RecOut) : List (String × List RecOut) :=
  outs.foldl addToModels []

/-- A materialized bucket as cached: `cache["bucket_id"]` and
`cache["buckets"]` (src/jugo.py lines 519-520), whose keys are set
together inside the critical section and modelled as one entry. -/
structure Bucket where
  bucketId : String
  buckets : List (String × List RecOut)

/-- Server state guarded by `cache_lock`: the TTL cache content (`none`
models Empty — no live bucket or an expired one) and the data store. -/
structure SrvState where
  cache : Option Bucket
  db : DB

/-- `cacheTTLseconds`: the TTL of the bucket cache,
`TTLCache(maxsize=2, ttl=1200)` (src/jugo.py line 124). -/
def cacheTTLseconds : Nat := 1200

/-- The response dict
`{model: cached_buckets[model] for model in json_data if model in cached_buckets}`
(src/jugo.py lines 543-547), modelled extensionally as the lookup
function of the returned `organics` object. -/
def projectBuckets (requested : List String)
    (buckets : List (String × List RecOut)) : String → Option (List RecOut) :=
  fun m => if requested.contains m then buckets.lookup m else none

/-- The exgest response `{"bucket_id": ..., "organics": ...}`. -/
structure ExgestResp where
  bucket_id : String
  organics : String → Option (List RecOut)

/-- The materialization branch of `exgest` (src/jugo.py lines 466-539):
generate the fresh id (line 472, passed in as `freshId` since `nanoid`
is a random generator), SELECT the unscored page, mark it scored,
decode, group — returning the new DB state and either the bucket or the
first error (a raised exception, surfaced as HTTP 500).  The UPDATE is
only issued when records were fetched (line 489). -/
def materialize (db : DB) (freshId : String) : DB × Except String Bucket :=
  let db1 := { db with selectCount := db.selectCount + 1 }
  if db.selectOk = false then (db1, .error "select failed")
  else
    let recs := selectUnscored db.store
    if recs.isEmpty then
      match decodeRecords db.parse recs with
      | none => (db1, .error "json decode failed")
      | some outs => (db1, .ok ⟨freshId, groupByModel outs⟩)
    else
      let db2 := { db1 with updateCount := db1.updateCount + 1 }
      if db.updateOk = false then (db2, .error "update failed")
      else
        let db3 := { db2 with store := markScored db2.store (recs.map (·.id)) }
        match decodeRecords db.parse recs with
        | none => (db3, .error "json decode failed")
        | some outs => (db3, .ok ⟨freshId, groupByModel outs⟩)

/-- The critical section of `exgest` under `cache_lock` plus the
response assembly (src/jugo.py lines 462-548): serve a live bucket
verbatim, otherwise materialize and publish it; on a materialization
error nothing is published and the error propagates (HTTP 500). -/
def fetchBatch (st : SrvState) (requested : List String) (freshId : String) :
    SrvState × Except String ExgestResp :=
  match st.cache with
  | some b => (st, .ok ⟨b.bucketId, projectBuckets requested b.buckets⟩)
  | none =>
    match materialize st.db freshId with
    | (db', .error e) => (⟨none, db'⟩, .error e)
    | (db', .ok b) =>
      (⟨some b, db'⟩, .ok ⟨b.bucketId, projectBuckets requested b.buckets⟩)

/-- One caller of POST /organics: its requested categories and the
nanoid the materialization branch would draw. -/
structure Caller where
  requested : List String
  freshId : String

/-- Sequential execution of callers' critical sections.  The
`cache_lock` (src/jugo.py lines 144-145, 462) serializes the critical
sections, and the section body performs no awaits, so every concurrent
execution of `exgest` equals the sequential composition of the
critical sections in the order the lock was granted; `runAll`
quantifies over that order. -/
def runAll (st : SrvState) : List Caller → SrvState × List (Except String ExgestResp)
  | [] => (st, [])
  | c :: cs =>
    let (st1, r) := fetchBatch st c.requested c.freshId
    let (stF, rs) := runAll st1 cs
    (stF, r :: rs)

/-! ## The watermark-based variant (`src/exgestor/exgestor.py`)

`get_cached_records` never marks records scored; instead it keeps a
watermark `current_bucket.last_id` (a process-global that survives
cache expiry) and selects `id > last_id AND scored = false ORDER BY id
DESC LIMIT 50`.  After the decode loop it sets
`current_bucket.last_id = response_records[-1]["id"]` — the *last*
element of the DESC-ordered batch, i.e. the smallest fetched id.

The database connection is a module-global created once at import
(line 36) and — crucially — closed in the `finally` block of every
cache-miss materialization (line 102), never reopened.  So the first
materialization leaves the connection closed, and on any later
cache-miss call `cursor.execute` raises `InterfaceError` on the closed
connection (and the `finally`'s second `connection.close()` raises
"Already closed"); either way the call surfaces HTTP 500 and neither
the watermark nor the cache is touched. -/

structure ExSrv where
  lastId : Nat
  cache : Option (String × List RecOut)
  connClosed : Bool

/-- `SELECT ... WHERE id > %s AND scored = false ORDER BY id DESC LIMIT
50` with `current_bucket.last_id or 0` as the parameter
(src/exgestor/exgestor.py lines 56-65). -/
def exSelect (store : List Rec) (lastId : Nat) : List Rec :=
  (sortDescById (store.filter (fun r => lastId < r.id ∧ r.scored = false))).take 50

/-- `get_cached_records` (src/exgestor/exgestor.py lines 46-105):
serve the cached bucket if present (the try/finally is not entered, so
the connection is untouched); otherwise, on a closed connection the
select raises and the call errors with no state change; on an open
connection: select, decode, advance the watermark to
`response_records[-1]["id"]` when the batch is nonempty, cache
`{bucket_id, records}` (an empty batch is cached too), and in every
path through the try/finally close the module-global connection
(line 102) — also on a decode failure, which errors before the
watermark or the cache is touched. -/
def get_cached_records (store : List Rec) (parse : String → Option Json)
    (srv : ExSrv) (freshId : String) :
    ExSrv × Except String (String × List RecOut) :=
  match srv.cache with
  | some b => (srv, .ok b)
  | none =>
    if srv.connClosed then
      (srv, .error "InterfaceError: cursor.execute on a closed connection")
    else
      let recs := exSelect store srv.lastId
      match decodeRecords parse recs with
      | none => ({ srv with connClosed := true }, .error "json decode failed")
      | some outs =>
        let lastId' := match outs.getLast? with
          | some r => r.id
          | none => srv.lastId
        (⟨lastId', some (freshId, outs), true⟩, .ok (freshId, outs))

/-! ## Shared concrete instances and helper lemmas -/

/-- A substrate library for which every address constructs a keypair and
every verification succeeds. -/
def libAll : Substrate := ⟨fun _ => true, fun _ _ _ => true⟩

/-- A substrate library in which the address `"notAnAddress"` is
malformed — `Keypair(ss58_address="notAnAddress")` raises `ValueError`,
as the real library does on a string that is not valid ss58 — and every
other address is fine. -/
def libBad : Substrate := ⟨fun s => s != "notAnAddress", fun _ _ _ => true⟩

/-- A constant stand-in usable for the SHA-256 hex digest parameter in
closed witnesses (the claims under check do not depend on digest
values). -/
def shaH : List Nat → String := fun _ => "H"

/-- A `json.loads` behaviour: the text `"[]"` parses to the empty list,
anything else fails. -/
def parseEmptyList : String → Option Json :=
  fun s => if s = "[]" then some (.arr []) else none

/-- A live bucket is served verbatim: the whole materialization branch
(src/jugo.py lines 466-539) is skipped and the state is untouched. -/
theorem fetchBatch_live (st : SrvState) (b : Bucket) (req : List String)
    (fid : String) (h : st.cache = some b) :
    fetchBatch st req fid = (st, .ok ⟨b.bucketId, projectBuckets req b.buckets⟩) := by
  unfold fetchBatch
  rw [h]

/-- Any sequence of callers hitting a live bucket leaves the state
unchanged and serves every caller the same bucket. -/
theorem runAll_live (cs : List Caller) (st : SrvState) (b : Bucket)
    (h : st.cache = some b) :
    runAll st cs =
      (st, cs.map (fun c => .ok ⟨b.bucketId, projectBuckets c.requested b.buckets⟩)) := by
  induction cs with
  | nil => rfl
  | cons c cs ih =>
    simp only [runAll, fetchBatch_live st b c.requested c.freshId h, ih, List.map]

/-! ## C10 — a string timestamp is rejected, with a twist

The claim says *every* call with a string timestamp returns
`"Invalid Timestamp"`.  The source checks the signature first
(src/epistula.py line 12), so a call whose signature header is missing
(`None`) and whose timestamp is a string returns `"Invalid Signature"`
instead — the claim fails on that input.  With a string signature the
claim's behaviour holds exactly: the timestamp `isinstance` check fires
before any numeric reading, so even `"123"` is rejected. -/

/-- C10 counterexample: signature `None` (missing header) and timestamp
the string `"123"` — `verify_signature` returns `"Invalid Signature"`,
not `"Invalid Timestamp"`, refuting "for every call in which the
timestamp argument is a string ... returns the Invalid Timestamp
reason". -/
theorem c10_counterexample :
    verify_signature libAll shaH .vnone (.vbytes []) (.vstr "123") (.vstr "u")
      (.vstr "sender") 0 none = .ok (some "Invalid Signature") := rfl

/-- C10 (amended): for every call whose signature argument is a string
— which holds whenever the Epistula-Request-Signature header is present
— and whose timestamp argument is a string, `verify_signature` returns
the `"Invalid Timestamp"` reason, whatever the string's content (no
numeric coercion is attempted) and whatever the other arguments are. -/
theorem c10_string_timestamp_rejected (lib : Substrate)
    (sha256hex : List Nat → String) (sig ts : String)
    (body uuid signed_by : PyVal) (now : Int) (sf : Option String) :
    verify_signature lib sha256hex (.vstr sig) body (.vstr ts) uuid signed_by
      now sf = .ok (some "Invalid Timestamp") := rfl

/-! ## C2 — the watermark does not exclude delivered records

In `src/exgestor/exgestor.py` records are never marked scored; the
claim says the advanced watermark excludes them instead.  The batch is
selected `ORDER BY id DESC`, so `response_records[-1]` (line 79) is the
record with the *smallest* id, and the watermark advances only to the
bottom of the batch: a delivered record above it is neither marked
scored nor excluded by the watermark.  No re-delivery is ever observed,
though — not because of the watermark, but because the `finally` of the
first materialization closed the module-global connection, so every
post-expiry materialization attempt fails with a server error. -/

/-- Three unscored records with ids 1, 2, 3 and parseable payloads. -/
def exStoreC2 : List Rec :=
  [⟨1, "m", "[]", "[]", false⟩, ⟨2, "m", "[]", "[]", false⟩, ⟨3, "m", "[]", "[]", false⟩]

/-- The ids handed out by one `get_cached_records` call. -/
def fetchedIds (r : Except String (String × List RecOut)) : List Nat :=
  match r with
  | .ok (_, rs) => rs.map (·.id)
  | .error _ => []

/-- C2 counterexample to the claim's mechanism: the first
materialization (watermark 0, open connection, empty cache) returns
ids `[3, 2, 1]` but advances the watermark only to `1` (the smallest
fetched id, since the batch is DESC-ordered).  The just-delivered
record 3 is, at the end of the very operation that produced the batch,
neither marked scored (this variant issues no UPDATE and the store is
only read) nor excluded by the advanced watermark: it still passes the
next select's WHERE clause `id > last_id AND scored = false`.  This
refutes "every fetched record is marked scored (or excluded by the
advanced watermark in the watermark-based variant) in the same logical
operation that produced the batch". -/
theorem c2_counterexample :
    fetchedIds (get_cached_records exStoreC2 parseEmptyList ⟨0, none, false⟩ "b_1").2
      = [3, 2, 1] ∧
    (get_cached_records exStoreC2 parseEmptyList ⟨0, none, false⟩ "b_1").1.lastId = 1 ∧
    (⟨3, "m", "[]", "[]", false⟩ : Rec) ∈ exSelect exStoreC2
      (get_cached_records exStoreC2 parseEmptyList ⟨0, none, false⟩ "b_1").1.lastId := by
  refine ⟨rfl, rfl, by decide⟩

/-! ## C7 — a live bucket is served verbatim for its whole lease -/

/-- C7: while a live bucket exists (cache entry present, i.e. within
the 1200-second TTL of src/jugo.py line 124), every call returns that
bucket's id and the projection of its record map — the response is a
function of the cached bucket and the requested categories alone — and
the server state, data store, and query/update counters are all
untouched, regardless of what unscored records the store now holds. -/
theorem c7_live_bucket_verbatim (st : SrvState) (b : Bucket)
    (req : List String) (fid : String) (h : st.cache = some b) :
    fetchBatch st req fid = (st, .ok ⟨b.bucketId, projectBuckets req b.buckets⟩) ∧
    (fetchBatch st req fid).1.db.selectCount = st.db.selectCount ∧
    (fetchBatch st req fid).1.db.updateCount = st.db.updateCount ∧
    (fetchBatch st req fid).1.db.store = st.db.store ∧
    cacheTTLseconds = 1200 := by
  have he := fetchBatch_live st b req fid h
  exact ⟨he, by rw [he], by rw [he], by rw [he], rfl⟩

/-- A live server state used by closed witnesses: one cached bucket
`b_live` holding one record of model `"m"`, over a store that has since
gained a fresh unscored record (id 9). -/
def stLive : SrvState :=
  { cache := some ⟨"b_live", [("m", [⟨5, "m", .arr [], .arr []⟩])]⟩
    db := ⟨[⟨5, "m", "[]", "[]", true⟩, ⟨9, "m", "[]", "[]", false⟩],
           true, true, parseEmptyList, 1, 1⟩ }

/-- C7 witness: the live state above serves `b_live` verbatim with all
counters unchanged even though an unscored record is waiting. -/
theorem c7_live_bucket_verbatim_witness :
    fetchBatch stLive ["m"] "b_fresh" =
      (stLive, .ok ⟨"b_live", projectBuckets ["m"]
        [("m", [⟨5, "m", .arr [], .arr []⟩])]⟩) ∧
    (fetchBatch stLive ["m"] "b_fresh").1.db.selectCount = stLive.db.selectCount ∧
    (fetchBatch stLive ["m"] "b_fresh").1.db.updateCount = stLive.db.updateCount ∧
    (fetchBatch stLive ["m"] "b_fresh").1.db.store = stLive.db.store ∧
    cacheTTLseconds = 1200 :=
  c7_live_bucket_verbatim stLive ⟨"b_live", [("m", [⟨5, "m", .arr [], .arr []⟩])]⟩
    ["m"] "b_fresh" rfl

/-! ## C9 — the response projection

The response dict is
`{model: cached_buckets[model] for model in json_data if model in cached_buckets}`:
a requested category that has no materialized records is *omitted* from
the mapping rather than mapped to an empty sequence (the bucket map
only ever holds categories with at least one record).  The claim's
"response contains, for each requested category, the (possibly empty)
ordered sequence" therefore fails for such a category, while both the
bucket id and the absence of unrequested categories hold. -/

/-- C9 (amended): every successful `exgest` response carries the id of
the bucket that is now cached, no entry at all for categories that were
not requested, and, for each requested category, exactly the cached
bucket's sequence for it — which means the category is omitted (`none`)
when the bucket has no records for it, not mapped to `[]`. -/
theorem c9_projection (st : SrvState) (req : List String) (fid : String)
    (st' : SrvState) (resp : ExgestResp)
    (h : fetchBatch st req fid = (st', .ok resp)) :
    ∃ b : Bucket, st'.cache = some b ∧ resp.bucket_id = b.bucketId ∧
      (∀ m, req.contains m = false → resp.organics m = none) ∧
      (∀ m, req.contains m = true → resp.organics m = b.buckets.lookup m) := by
  unfold fetchBatch at h
  cases hc : st.cache with
  | some b =>
    rw [hc] at h
    injection h with h1 h2
    injection h2 with h2
    subst h1
    subst h2
    refine ⟨b, hc, rfl, ?_, ?_⟩
    · intro m hm
      have hm' : m ∉ req := by simpa using hm
      simp [projectBuckets, hm']
    · intro m hm
      have hm' : m ∈ req := by simpa using hm
      simp [projectBuckets, hm']
  | none =>
    rw [hc] at h
    rcases hm : materialize st.db fid with ⟨db', e | b⟩ <;> rw [hm] at h
    · exact absurd h (by simp)
    · injection h with h1 h2
      injection h2 with h2
      subst h1
      subst h2
      refine ⟨b, rfl, rfl, ?_, ?_⟩
      · intro m hmem
        have hm' : m ∉ req := by simpa using hmem
        simp [projectBuckets, hm']
      · intro m hmem
        have hm' : m ∈ req := by simpa using hmem
        simp [projectBuckets, hm']

/-- C9 counterexample: with a live bucket holding records only for
category `"m"`, a request naming the two categories `"m"` and `"nope"`
receives a response whose `organics` has no entry for the requested
category `"nope"` — not the empty sequence the claim promises for every
requested category. -/
theorem c9_counterexample :
    (fetchBatch stLive ["m", "nope"] "b_f").2.toOption.map (·.organics "nope")
      = some none := rfl

/-- C9 witness: at the concrete live state the amended theorem yields
that the unrequested category `"other"` is absent from the response. -/
theorem c9_projection_witness :
    (fetchBatch stLive ["m", "nope"] "b_f").2.toOption.map (·.organics "other")
      = some none := by
  obtain ⟨b, hb, hid, hnone, hsome⟩ := c9_projection stLive ["m", "nope"] "b_f" stLive _ rfl
  exact congrArg some (hnone "other" rfl)

/-! ## C6 — failed materialization publishes nothing -/

/-- Whether the endpoint call succeeded (no HTTP 500). -/
def isOkE : Except String ExgestResp → Bool
  | .ok _ => true
  | .error _ => false

/-- The three failure points of the materialization branch (SELECT
raising, UPDATE raising, `json.loads` raising) each abort it with an
error. -/
theorem materialize_error_of_failure (db : DB) (fid : String)
    (hfail : db.selectOk = false ∨
      (selectUnscored db.store ≠ [] ∧ db.updateOk = false) ∨
      decodeRecords db.parse (selectUnscored db.store) = none) :
    ∀ db' b, materialize db fid ≠ (db', .ok b) := by
  intro db' b
  unfold materialize
  rcases hl : selectUnscored db.store with - | ⟨r, rs⟩
  · rcases hfail with h | ⟨hne, -⟩ | h
    · simp [h]
    · exact absurd hl hne
    · rw [hl] at h
      simp [decodeRecords] at h
  · rcases hfail with h | ⟨-, h⟩ | h
    · simp [h]
    · cases hs : db.selectOk with
      | false => simp [hs]
      | true => simp [hs, h, List.isEmpty]
    · cases hs : db.selectOk with
      | false => simp [hs]
      | true =>
        cases hu : db.updateOk with
        | false => simp [hs, hu, List.isEmpty]
        | true =>
          rw [hl] at h
          simp [hs, hu, h, List.isEmpty]

/-- C6: if the data store fails at any point of the materialization —
the SELECT fails, the mark-scored UPDATE fails, or a fetched record's
payload fails to decode — then `exgest` surfaces an error (HTTP 500)
and the cache is left exactly as it was: Empty.  Neither the records
mapping nor the bucket id is published, so no current or subsequent
caller can observe a partially materialized bucket. -/
theorem c6_failure_publishes_nothing (st : SrvState) (req : List String)
    (fid : String) (hc : st.cache = none)
    (hfail : st.db.selectOk = false ∨
      (selectUnscored st.db.store ≠ [] ∧ st.db.updateOk = false) ∨
      decodeRecords st.db.parse (selectUnscored st.db.store) = none) :
    (fetchBatch st req fid).1.cache = none ∧
    isOkE (fetchBatch st req fid).2 = false := by
  have hm := materialize_error_of_failure st.db fid hfail
  unfold fetchBatch
  rw [hc]
  rcases hmm : materialize st.db fid with ⟨db', e | b⟩
  · exact ⟨rfl, rfl⟩
  · exact absurd hmm (hm db' b)

/-- A store whose SELECT statement fails. -/
def dbSelectFails : DB := ⟨[⟨1, "m", "[]", "[]", false⟩], false, true, parseEmptyList, 0, 0⟩

/-- C6 witness: with the failing store above, the fetch reports an
error and the cache stays Empty. -/
theorem c6_failure_publishes_nothing_witness :
    (fetchBatch ⟨none, dbSelectFails⟩ ["m"] "b_1").1.cache = none ∧
    isOkE (fetchBatch ⟨none, dbSelectFails⟩ ["m"] "b_1").2 = false :=
  c6_failure_publishes_nothing ⟨none, dbSelectFails⟩ ["m"] "b_1" rfl (.inl rfl)

/-! ## C3 — exactly one fetch-and-mark cycle per lease

`cache_lock` is a single process-wide `asyncio.Lock` (src/jugo.py lines
144-145) and the critical section it guards (lines 462-539) contains no
`await`, so on the single-threaded event loop every concurrent batch of
`exgest` calls executes as the sequence of critical sections in
lock-grant order.  `runAll` ranges over every such order, so the
theorems below cover every interleaving the lock admits. -/

/-- `runAll` unfolded one caller at a time. -/
theorem runAll_cons (st : SrvState) (c : Caller) (cs : List Caller) :
    runAll st (c :: cs) =
      ((runAll (fetchBatch st c.requested c.freshId).1 cs).1,
       (fetchBatch st c.requested c.freshId).2 ::
         (runAll (fetchBatch st c.requested c.freshId).1 cs).2) := by
  rcases h1 : fetchBatch st c.requested c.freshId with ⟨st1, r⟩
  rcases h2 : runAll st1 cs with ⟨stF, rs⟩
  simp [runAll, h1, h2]

/-- A successful materialization: one SELECT, one mark-scored UPDATE,
the fetched page's ids marked scored in the store, and the grouped
bucket returned. -/
theorem materialize_ok (db : DB) (fid : String) (outs : List RecOut)
    (hs : db.selectOk = true) (hu : db.updateOk = true)
    (hne : selectUnscored db.store ≠ [])
    (hdec : decodeRecords db.parse (selectUnscored db.store) = some outs) :
    materialize db fid =
      ({ db with
           store := markScored db.store ((selectUnscored db.store).map (·.id)),
           selectCount := db.selectCount + 1,
           updateCount := db.updateCount + 1 },
       .ok ⟨fid, groupByModel outs⟩) := by
  unfold materialize
  rcases hl : selectUnscored db.store with - | ⟨r, rs⟩
  · exact absurd hl hne
  · rw [hl] at hdec
    simp [hs, hu, hdec, List.isEmpty]

/-- C3: starting from an Empty cache, any nonempty sequence of `exgest`
callers — i.e. any order in which the single cache-wide lock can admit
a burst of concurrent callers — issues exactly one SELECT and exactly
one mark-scored UPDATE against the data store, and every caller's
response carries the one bucket id generated by the first caller's
materialization, with the per-caller projection of the one grouped
bucket. -/
theorem c3_one_materialization_per_burst (st : SrvState) (c0 : Caller)
    (cs : List Caller) (hc : st.cache = none)
    (hs : st.db.selectOk = true) (hu : st.db.updateOk = true)
    (hne : selectUnscored st.db.store ≠ []) (outs : List RecOut)
    (hdec : decodeRecords st.db.parse (selectUnscored st.db.store) = some outs) :
    (runAll st (c0 :: cs)).1.db.selectCount = st.db.selectCount + 1 ∧
    (runAll st (c0 :: cs)).1.db.updateCount = st.db.updateCount + 1 ∧
    (runAll st (c0 :: cs)).2 =
      .ok ⟨c0.freshId, projectBuckets c0.requested (groupByModel outs)⟩ ::
        cs.map (fun c =>
          .ok ⟨c0.freshId, projectBuckets c.requested (groupByModel outs)⟩) := by
  have hm := materialize_ok st.db c0.freshId outs hs hu hne hdec
  have hf : fetchBatch st c0.requested c0.freshId =
      (⟨some ⟨c0.freshId, groupByModel outs⟩,
        { st.db with
            store := markScored st.db.store ((selectUnscored st.db.store).map (·.id)),
            selectCount := st.db.selectCount + 1,
            updateCount := st.db.updateCount + 1 }⟩,
       .ok ⟨c0.freshId, projectBuckets c0.requested (groupByModel outs)⟩) := by
    unfold fetchBatch
    rw [hc, hm]
  rw [runAll_cons, hf, runAll_live cs _ _ rfl]
  exact ⟨rfl, rfl, rfl⟩

/-- Store for the C3 witness: two unscored records of models `"m"`,
`"n"`. -/
def dbC3 : DB :=
  ⟨[⟨1, "m", "[]", "[]", false⟩, ⟨2, "n", "[]", "[]", false⟩],
   true, true, parseEmptyList, 0, 0⟩

/-- The decode of `dbC3`'s unscored page (ids 2, 1 in DESC order). -/
def outsC3 : List RecOut :=
  [⟨2, "n", .arr [], .arr []⟩, ⟨1, "m", .arr [], .arr []⟩]

/-- C3 witness: three callers in one burst — one SELECT, one UPDATE,
and all three responses carry the first caller's bucket id `"b_1"`. -/
theorem c3_one_materialization_per_burst_witness :
    (runAll ⟨none, dbC3⟩ [⟨["m"], "b_1"⟩, ⟨["n"], "b_2"⟩, ⟨["m", "n"], "b_3"⟩]).1.db.selectCount
        = 1 ∧
    (runAll ⟨none, dbC3⟩ [⟨["m"], "b_1"⟩, ⟨["n"], "b_2"⟩, ⟨["m", "n"], "b_3"⟩]).1.db.updateCount
        = 1 ∧
    (runAll ⟨none, dbC3⟩ [⟨["m"], "b_1"⟩, ⟨["n"], "b_2"⟩, ⟨["m", "n"], "b_3"⟩]).2 =
      [.ok ⟨"b_1", projectBuckets ["m"] (groupByModel outsC3)⟩,
       .ok ⟨"b_1", projectBuckets ["n"] (groupByModel outsC3)⟩,
       .ok ⟨"b_1", projectBuckets ["m", "n"] (groupByModel outsC3)⟩] := by
  have h := c3_one_materialization_per_burst ⟨none, dbC3⟩ ⟨["m"], "b_1"⟩
    [⟨["n"], "b_2"⟩, ⟨["m", "n"], "b_3"⟩] rfl rfl rfl (by decide) outsC3 rfl
  exact ⟨h.1, h.2.1, h.2.2⟩

/-! ## C4, C5, C8 — verifier behaviour after the type checks -/

/-- The stale reason can never coincide with the mismatch reason (it is
strictly longer than `"Signature Mismatch"` whatever the numbers). -/
theorem staleReason_ne_mismatch (t n : Int) :
    staleReason t n ≠ "Signature Mismatch" := by
  intro h
  have hlen := congrArg String.length h
  unfold staleReason at hlen
  rw [String.length_append, String.length_append, String.length_append] at hlen
  have h1 : ("Request is too stale: " : String).length = 22 := rfl
  have h2 : (" < " : String).length = 3 := rfl
  have h3 : ("Signature Mismatch" : String).length = 18 := rfl
  omega

/-- The cryptographic stage returns `none`, `"Signature Mismatch"` or a
hex-decoding exception — never the stale reason. -/
theorem verifyCrypto_ne_stale (lib : Substrate) (sha256hex : List Nat → String)
    (sig : String) (bv : List Nat ⊕ Json) (ts : Int) (u sb : String)
    (sf : Option String) (t n : Int) :
    verifyCrypto lib sha256hex sig bv ts u sb sf ≠ .ok (some (staleReason t n)) := by
  intro h
  simp only [verifyCrypto] at h
  by_cases hpre : startsWith0x sig = true
  · rw [if_pos hpre] at h
    split at h
    · exact Except.noConfusion h
    · split at h
      · injection h with h'
        injection h'
      · injection h with h'
        injection h' with h''
        exact staleReason_ne_mismatch t n h''.symm
  · rw [if_neg hpre] at h
    split at h
    · injection h with h'
      injection h'
    · injection h with h'
      injection h' with h''
      exact staleReason_ne_mismatch t n h''.symm

/-- `verify_signature` once the type checks and keypair construction
succeed: the staleness gate, then the cryptographic stage. -/
theorem verify_signature_checked (lib : Substrate)
    (sha256hex : List Nat → String) (sig : String) (body timestamp : PyVal)
    (ts : Int) (u sb : String) (now : Int) (sf : Option String)
    (hts : timestamp.asInt = some ts) (bv : List Nat ⊕ Json)
    (hbv : body.asBody = some bv) (hkp : lib.keypairOk sb = true) :
    verify_signature lib sha256hex (.vstr sig) body timestamp (.vstr u)
        (.vstr sb) now sf =
      if ts + ALLOWED_DELTA_MS < now then .ok (some (staleReason ts now))
      else verifyCrypto lib sha256hex sig bv ts u sb sf := by
  unfold verify_signature
  rw [hts, hbv]
  simp [hkp]

/-- C4 (amended): for every input that passes the type/shape checks
*and* whose sender address constructs a keypair (a stale request with a
malformed sender raises from `Keypair(...)` at line 24 instead — see
the counterexample), `verify_signature` returns the stale rejection
exactly when `timestamp + ALLOWED_DELTA_MS < now` (`ALLOWED_DELTA_MS`
fixed at 8000), regardless of the signature's validity; and a timestamp
in the future is never rejected by the freshness check. -/
theorem c4_stale_exactly_when_old (lib : Substrate)
    (sha256hex : List Nat → String) (sig : String) (body timestamp : PyVal)
    (ts : Int) (u sb : String) (now : Int) (sf : Option String)
    (hts : timestamp.asInt = some ts) (bv : List Nat ⊕ Json)
    (hbv : body.asBody = some bv) (hkp : lib.keypairOk sb = true) :
    (verify_signature lib sha256hex (.vstr sig) body timestamp (.vstr u)
        (.vstr sb) now sf = .ok (some (staleReason ts now)) ↔
      ts + ALLOWED_DELTA_MS < now) ∧
    (now < ts →
      verify_signature lib sha256hex (.vstr sig) body timestamp (.vstr u)
        (.vstr sb) now sf ≠ .ok (some (staleReason ts now))) := by
  have hred := verify_signature_checked lib sha256hex sig body timestamp ts u sb
    now sf hts bv hbv hkp
  have hA : ALLOWED_DELTA_MS = 8000 := rfl
  by_cases hst : ts + ALLOWED_DELTA_MS < now
  · rw [hred, if_pos hst]
    exact ⟨⟨fun _ => hst, fun _ => rfl⟩, fun hfut => absurd hst (by omega)⟩
  · rw [hred, if_neg hst]
    exact ⟨⟨fun hEq => absurd hEq (verifyCrypto_ne_stale _ _ _ _ _ _ _ _ _ _),
           fun hst' => absurd hst' hst⟩,
          fun _ => verifyCrypto_ne_stale _ _ _ _ _ _ _ _ _ _⟩

/-- C4 witness: a stale request (timestamp 0, now 10000) with a valid
keypair is rejected with the stale reason. -/
theorem c4_stale_exactly_when_old_witness :
    verify_signature libAll shaH (.vstr "s") (.vbytes []) (.vint 0) (.vstr "u")
      (.vstr "sb") 10000 none = .ok (some (staleReason 0 10000)) :=
  (c4_stale_exactly_when_old libAll shaH "s" (.vbytes []) (.vint 0) 0 "u" "sb"
    10000 none rfl (.inl []) rfl rfl).1.mpr (by decide)

/-- C4 counterexample: the claim as stated fails — this input passes
every type/shape check and is stale (`0 + 8000 < 1000000`), yet
`verify_signature` does not reject it as stale: line 24 constructs
`Keypair(ss58_address="notAnAddress")` *before* the staleness check and
that constructor raises, so the call propagates a `ValueError`
instead of returning the stale reason. -/
theorem c4_counterexample :
    verify_signature libBad shaH (.vstr "s") (.vbytes []) (.vint 0) (.vstr "u")
        (.vstr "notAnAddress") 1000000 none = .error .keypairValueError ∧
      (0 : Int) + ALLOWED_DELTA_MS < 1000000 :=
  ⟨rfl, by decide⟩

/-- The sender-key argument makes `Keypair(ss58_address=...)` raise:
it is a string (so the type check passed) whose address is malformed. -/
def keypairFailed (lib : Substrate) : PyVal → Bool
  | .vstr sb => !lib.keypairOk sb
  | _ => false

/-- The signature argument makes `bytes.fromhex` raise: a string with
the `0x` prefix whose remainder is not valid hex. -/
def hexFailed : PyVal → Bool
  | .vstr s => startsWith0x s && (bytesFromHex (pySliceFrom2 s)).isNone
  | _ => false

/-- A cryptographic-stage exception is exactly a hex-decoding failure
of a `0x`-prefixed signature string. -/
theorem verifyCrypto_error_hex (lib : Substrate) (sha256hex : List Nat → String)
    (sig : String) (bv : List Nat ⊕ Json) (ts : Int) (u sb : String)
    (sf : Option String) (e : EpExn)
    (h : verifyCrypto lib sha256hex sig bv ts u sb sf = .error e) :
    e = .hexValueError ∧ startsWith0x sig = true ∧
      bytesFromHex (pySliceFrom2 sig) = none := by
  simp only [verifyCrypto] at h
  by_cases hpre : startsWith0x sig = true
  · rw [if_pos hpre] at h
    split at h
    · rename_i heq
      injection h with h'
      exact ⟨h'.symm, hpre, heq⟩
    · split at h <;> exact Except.noConfusion h
  · rw [if_neg hpre] at h
    split at h <;> exact Except.noConfusion h

/-- C5 (amended): `verify_signature` returns a reason string, not an
exception, for every type-level malformed input (its `isinstance`
ladder), but it is not exception-free: an exception escapes exactly
when either `Keypair(ss58_address=signed_by)` raises on a malformed
sender address (src/epistula.py line 24) or `bytes.fromhex` raises on
a non-hex `0x`-prefixed signature (line 42) — and those are the only
two raising inputs. -/
theorem c5_raises_only_from_library (lib : Substrate)
    (sha256hex : List Nat → String)
    (signature body timestamp uuid signed_by : PyVal) (now : Int)
    (sf : Option String) (e : EpExn)
    (h : verify_signature lib sha256hex signature body timestamp uuid signed_by
        now sf = .error e) :
    (e = .keypairValueError ∧ keypairFailed lib signed_by = true) ∨
    (e = .hexValueError ∧ hexFailed signature = true) := by
  cases signature with
  | vnone => exact absurd h (by simp [verify_signature])
  | vint n => exact absurd h (by simp [verify_signature])
  | vbool b => exact absurd h (by simp [verify_signature])
  | vbytes bs => exact absurd h (by simp [verify_signature])
  | vdict kvs => exact absurd h (by simp [verify_signature])
  | vlist xs => exact absurd h (by simp [verify_signature])
  | vstr s =>
    simp only [verify_signature] at h
    rcases hts : timestamp.asInt with - | ts <;> rw [hts] at h
    · exact Except.noConfusion h
    cases signed_by with
    | vstr sb =>
      cases uuid with
      | vstr u =>
        rcases hbv : body.asBody with - | bv <;> rw [hbv] at h
        · exact Except.noConfusion h
        dsimp only at h
        by_cases hkp : lib.keypairOk sb = false
        · rw [if_pos hkp] at h
          injection h with h'
          exact .inl ⟨h'.symm, by simp [keypairFailed, hkp]⟩
        · rw [if_neg hkp] at h
          split at h
          · exact Except.noConfusion h
          · have hc := verifyCrypto_error_hex lib sha256hex s bv ts u sb sf e h
            exact .inr ⟨hc.1, by simp [hexFailed, hc.2.1, hc.2.2]⟩
      | vnone => exact Except.noConfusion h
      | vint n => exact Except.noConfusion h
      | vbool b => exact Except.noConfusion h
      | vbytes bs => exact Except.noConfusion h
      | vdict kvs => exact Except.noConfusion h
      | vlist xs => exact Except.noConfusion h
    | vnone => exact Except.noConfusion h
    | vint n => exact Except.noConfusion h
    | vbool b => exact Except.noConfusion h
    | vbytes bs => exact Except.noConfusion h
    | vdict kvs => exact Except.noConfusion h
    | vlist xs => exact Except.noConfusion h

/-- C5 counterexample: `verify_signature` does raise.  The arguments
are all well-typed and fresh, but the sender address is malformed, so
`Keypair(ss58_address="notAnAddress")` at line 24 raises `ValueError`
and the call propagates it instead of returning a reason string. -/
theorem c5_counterexample :
    verify_signature libBad shaH (.vstr "s") (.vbytes []) (.vint 999)
      (.vstr "u") (.vstr "notAnAddress") 0 none = .error .keypairValueError := rfl

/-- C5 witness: the amended theorem applied to a concrete raising call
— a valid sender but the non-hex signature `"0xzz"` — attributes the
exception to `bytes.fromhex`. -/
theorem c5_raises_only_from_library_witness :
    (EpExn.hexValueError = .keypairValueError ∧
      keypairFailed libAll (.vstr "sb") = true) ∨
    (EpExn.hexValueError = .hexValueError ∧
      hexFailed (.vstr "0xzz") = true) :=
  c5_raises_only_from_library libAll shaH (.vstr "0xzz") (.vbytes [])
    (.vint 0) (.vstr "u") (.vstr "sb") 0 none .hexValueError (by rfl)

/-- C8: under a present, well-typed, fresh request with a constructible
sender keypair and a `0x`-prefixed hex signature, `verify_signature`
hashes a raw-bytes body directly, assembles the canonical message
exactly as `hex(SHA-256(body)) ++ "." ++ uuid ++ "." ++ timestamp ++
"." ++ (signedFor or "")`, verifies the decoded signature bytes against
that message, and returns no error on success and the
`"Signature Mismatch"` reason on cryptographic failure. -/
theorem c8_canonical_message (lib : Substrate) (sha256hex : List Nat → String)
    (sig : String) (bs : List Nat) (timestamp : PyVal) (ts : Int)
    (u sb : String) (now : Int) (sf : Option String) (sigBytes : List Nat)
    (hts : timestamp.asInt = some ts) (hkp : lib.keypairOk sb = true)
    (hfresh : ¬ts + ALLOWED_DELTA_MS < now)
    (hpre : startsWith0x sig = true)
    (hhex : bytesFromHex (pySliceFrom2 sig) = some sigBytes) :
    verify_signature lib sha256hex (.vstr sig) (.vbytes bs) timestamp (.vstr u)
        (.vstr sb) now sf =
      .ok (if lib.verify sb
            (sha256hex bs ++ "." ++ u ++ "." ++ toString ts ++ "." ++ sf.getD "")
            (.bytes sigBytes)
          then none else some "Signature Mismatch") := by
  rw [verify_signature_checked lib sha256hex sig (.vbytes bs) timestamp ts u sb
    now sf hts (.inl bs) rfl hkp, if_neg hfresh]
  simp only [verifyCrypto]
  rw [if_pos hpre]
  simp only [hhex]
  split <;> rfl

/-- C8 witness: a concrete fresh request with the hex signature
`"0xab"` and an always-accepting library verifies with no error. -/
theorem c8_canonical_message_witness :
    verify_signature libAll shaH (.vstr "0xab") (.vbytes [1, 2]) (.vint 5)
      (.vstr "u") (.vstr "sb") 5 none = .ok none :=
  (c8_canonical_message libAll shaH "0xab" [1, 2] (.vint 5) 5 "u" "sb" 5 none
    [171] rfl rfl (by decide) (by rfl) (by rfl)).trans rfl

/-! ## C1 — canonicalization is *not* key-order invariant

`verify_signature` serializes structured bodies with
`json.dumps(body, separators=(',', ':'))` — separator-exact, but
without `sort_keys=True`, so keys are emitted in dict insertion order.
Two structurally equal dicts with different key order therefore
serialize to different byte strings, and the claimed round-trip
`canonicalize(x) == canonicalize(reorder(x))` fails. -/

/-- `{"a": 1, "b": 2}`. -/
def exA : Json := .obj [("a", .num 1), ("b", .num 2)]

/-- `{"b": 2, "a": 1}` — the same dict built in the other order. -/
def exB : Json := .obj [("b", .num 2), ("a", .num 1)]

/-- C1 counterexample: `exA` and `exB` are structurally equal (Python
`==`), yet their canonical encodings differ byte-for-byte
(`{"a":1,"b":2}` vs `{"b":2,"a":1}`), so the canonicalization used by
`verify_signature` does not satisfy
`canonicalize(x) == canonicalize(reorder(x))`. -/
theorem c1_counterexample : structEq exA exB = true ∧ dumps exA ≠ dumps exB := by
  constructor
  · simp [exA, exB, structEq, structEqDict, findKeyEq, List.lookup]
  · decide

/-- Dropping a first entry whose key occurs nowhere in `a` does not
change whether `a`'s entries are all matched. -/
theorem structEqDict_cons_right (a : List (String × Json)) (k : String)
    (w : Json) (b : List (String × Json)) (hk : ∀ p ∈ a, p.1 ≠ k) :
    structEqDict a ((k, w) :: b) = structEqDict a b := by
  induction a with
  | nil => simp [structEqDict]
  | cons p a ih =>
    obtain ⟨k1, v1⟩ := p
    have hne : k1 ≠ k := hk (k1, v1) (by simp)
    have ihx := ih (fun q hq => hk q (by simp [hq]))
    simp [structEqDict, findKeyEq, hne, ihx]

/-- Structural equality plus identical ordered shape forces literal
equality, simultaneously for values, lists of values and dict entry
lists (strong induction on the summed sizes). -/
theorem structEq_sameOrder_eq (n : Nat) :
    (∀ x y : Json, sizeOf x + sizeOf y ≤ n → uniqKeys x = true →
      structEq x y = true → sameOrder x y = true → x = y) ∧
    (∀ xs ys : List Json, sizeOf xs + sizeOf ys ≤ n → uniqKeysList xs = true →
      structEqList xs ys = true → sameOrderList xs ys = true → xs = ys) ∧
    (∀ a b : List (String × Json), sizeOf a + sizeOf b ≤ n →
      (a.map Prod.fst).Nodup → uniqKeysKVs a = true →
      structEqDict a b = true → sameOrderDict a b = true → a = b) := by
  induction n using Nat.strong_induction_on with
  | _ n ih =>
  refine ⟨?_, ?_, ?_⟩
  · intro x y hsz hu hs ho
    cases x <;> cases y <;>
      first
        | rfl
        | exact Bool.noConfusion ho
        | skip
    case bool.bool a b =>
      simp [structEq] at hs
      rw [hs]
    case num.num a b =>
      simp [structEq] at hs
      rw [hs]
    case str.str a b =>
      simp [structEq] at hs
      rw [hs]
    case arr.arr xs ys =>
      simp only [Json.arr.sizeOf_spec] at hsz
      simp [uniqKeys] at hu
      simp [structEq] at hs
      simp [sameOrder] at ho
      have hlt : sizeOf xs + sizeOf ys < n := by omega
      rw [(ih _ hlt).2.1 xs ys le_rfl hu hs ho]
    case obj.obj a b =>
      simp only [Json.obj.sizeOf_spec] at hsz
      simp [uniqKeys] at hu
      simp [structEq] at hs
      simp [sameOrder] at ho
      have hlt : sizeOf a + sizeOf b < n := by omega
      rw [(ih _ hlt).2.2 a b le_rfl hu.1 hu.2 hs.1 ho]
  · intro xs ys hsz hu hs ho
    cases xs <;> cases ys <;>
      first
        | rfl
        | exact Bool.noConfusion ho
        | skip
    case cons.cons x xs y ys =>
      simp only [List.cons.sizeOf_spec] at hsz
      simp [uniqKeysList] at hu
      simp [structEqList] at hs
      simp [sameOrderList] at ho
      have hlt1 : sizeOf x + sizeOf y < n := by omega
      have hlt2 : sizeOf xs + sizeOf ys < n := by omega
      rw [(ih _ hlt1).1 x y le_rfl hu.1 hs.1 ho.1,
          (ih _ hlt2).2.1 xs ys le_rfl hu.2 hs.2 ho.2]
  · intro a b hsz hnd hu hs ho
    cases a <;> cases b <;>
      first
        | rfl
        | exact Bool.noConfusion ho
        | skip
    case cons.cons p a q b =>
      obtain ⟨k, v⟩ := p
      obtain ⟨k', w⟩ := q
      simp only [List.cons.sizeOf_spec, Prod.mk.sizeOf_spec] at hsz
      simp [List.nodup_cons] at hnd
      simp [uniqKeysKVs] at hu
      simp [sameOrderDict] at ho
      obtain ⟨⟨rfl, hovw⟩, hotail⟩ := ho
      simp [structEqDict, findKeyEq] at hs
      have hknot : ∀ p ∈ a, p.1 ≠ k := by
        intro p hp
        intro hpk
        exact hnd.1 p.2 (by rw [← hpk]; exact (by simpa using hp))
      rw [structEqDict_cons_right a k w b hknot] at hs
      have hlt1 : sizeOf v + sizeOf w < n := by omega
      have hlt2 : sizeOf a + sizeOf b < n := by omega
      rw [(ih _ hlt1).1 v w le_rfl hu.1 hs.1 hovw,
          (ih _ hlt2).2.2 a b le_rfl hnd.2 hu.2 hs.2 hotail]

/-- C1 (amended): the canonicalization used by `verify_signature` is
deterministic but key-order *sensitive*: two structured bodies that are
structurally equal and present their dict keys in the same order (at
every level) — i.e. an order-preserving re-serialization — produce
byte-identical canonical encodings and hence identical SHA-256 digests;
a reordering that changes key order is not covered, and by the
counterexample genuinely changes the encoding, so a signature is only
valid for the exact key order the signer serialized. -/
theorem c1_order_preserving_canonicalization (sha256hex : List Nat → String)
    (x y : Json) (hu : uniqKeys x = true) (hs : structEq x y = true)
    (ho : sameOrder x y = true) :
    dumps x = dumps y ∧
    sha256hex (utf8Bytes (dumps x)) = sha256hex (utf8Bytes (dumps y)) := by
  have hxy := (structEq_sameOrder_eq (sizeOf x + sizeOf y)).1 x y le_rfl hu hs ho
  rw [hxy]
  exact ⟨rfl, rfl⟩

/-- C1 witness: the amended theorem applied to the concrete dict
`{"a": 1, "b": 2}` against itself in the same key order. -/
theorem c1_order_preserving_canonicalization_witness :
    dumps exA = dumps exA ∧
    shaH (utf8Bytes (dumps exA)) = shaH (utf8Bytes (dumps exA)) :=
  c1_order_preserving_canonicalization shaH exA exA (by decide)
    (by simp [exA, structEq, structEqDict, findKeyEq]) (by decide)

/-! ## Supporting theorem: the mark-scored variant does not re-deliver

For contrast with the watermark bug (C2), the `src/jugo.py` variant
marks the fetched page scored inside the critical section, and a second
materialization over the updated store can never select any id of the
first page. -/

/-- Membership is preserved by the `ORDER BY id DESC` sort. -/
theorem mem_insertDescById (r x : Rec) (l : List Rec) :
    x ∈ insertDescById r l ↔ x ∈ l ∨ x = r := by
  induction l with
  | nil => simp [insertDescById]
  | cons a l ih =>
    by_cases hle : r.id ≤ a.id
    · simp [insertDescById, hle, ih]
      tauto
    · simp [insertDescById, hle]
      tauto

/-- Membership is preserved by `sortDescById`. -/
theorem mem_sortDescById (x : Rec) (l : List Rec) :
    x ∈ sortDescById l ↔ x ∈ l := by
  induction l with
  | nil => simp [sortDescById]
  | cons a l ih =>
    simp only [sortDescById] at ih ⊢
    rw [List.foldr_cons, mem_insertDescById]
    simp [ih]
    tauto

/-- Every record of the fetched page is an unscored record of the
store. -/
theorem mem_selectUnscored (x : Rec) (store : List Rec)
    (h : x ∈ selectUnscored store) : x ∈ store ∧ x.scored = false := by
  unfold selectUnscored at h
  have h1 := List.mem_of_mem_take h
  rw [mem_sortDescById] at h1
  exact ⟨(List.mem_filter.mp h1).1, by simpa using (List.mem_filter.mp h1).2⟩

/-- After `markScored`, every record whose id is in the marked list is
scored. -/
theorem markScored_scored (store : List Rec) (ids : List Nat) (x : Rec)
    (hx : x ∈ markScored store ids) (hid : x.id ∈ ids) : x.scored = true := by
  unfold markScored at hx
  obtain ⟨r, hr, hrx⟩ := List.mem_map.mp hx
  by_cases hmem : r.id ∈ ids
  · rw [if_pos hmem] at hrx
    rw [← hrx]
  · rw [if_neg hmem] at hrx
    rw [← hrx] at hid
    exact absurd hid hmem

/-- The `src/jugo.py` variant never re-delivers: once a page has been
fetched and marked scored (which `exgest` does in the same critical
section), no id of that page can appear in the page of any later
materialization over the updated store. -/
theorem jugo_no_redelivery (store : List Rec) (i : Nat)
    (h1 : i ∈ (selectUnscored store).map (·.id)) :
    i ∉ (selectUnscored (markScored store
      ((selectUnscored store).map (·.id)))).map (·.id) := by
  intro h2
  obtain ⟨x, hx, hxi⟩ := List.mem_map.mp h2
  obtain ⟨hxmem, hxunscored⟩ := mem_selectUnscored x _ hx
  have : x.scored = true := by
    apply markScored_scored store _ x hxmem
    rw [hxi]
    exact h1
  rw [this] at hxunscored
  exact Bool.noConfusion hxunscored

/-- Whether a `get_cached_records` call succeeded (no HTTP 500). -/
def exFetchOk : Except String (String × List RecOut) → Bool
  | .ok _ => true
  | .error _ => false

/-- C2 (amended): a record once returned in a materialized bucket never
appears in a subsequent materialization, in either variant, with the
mechanisms as the code actually has them.  (1) In the `src/jugo.py`
variant every fetched record is marked scored in the same critical
section, so no id of a fetched page can be selected by any later
materialization over the updated store.  (2) In the watermark-based
`src/exgestor/exgestor.py` variant the protection is *not* the
watermark (see the counterexample): instead, every cache-miss
materialization closes the module-global connection in its `finally`,
and (3) once the connection is closed a post-expiry fetch (cache
Empty) always fails with a server error — a second bucket is never
materialized at all, so no identifier overlap between materialized
buckets can ever be observed. -/
theorem c2_no_redelivery (store0 : List Rec) (i : Nat)
    (h1 : i ∈ (selectUnscored store0).map (·.id)) :
    i ∉ (selectUnscored (markScored store0
      ((selectUnscored store0).map (·.id)))).map (·.id) ∧
    (∀ (store : List Rec) (parse : String → Option Json) (srv : ExSrv)
      (fid : String), srv.cache = none →
        (get_cached_records store parse srv fid).1.connClosed = true) ∧
    (∀ (store : List Rec) (parse : String → Option Json) (srv : ExSrv)
      (fid : String), srv.cache = none → srv.connClosed = true →
        exFetchOk (get_cached_records store parse srv fid).2 = false) := by
  refine ⟨jugo_no_redelivery store0 i h1, ?_, ?_⟩
  · intro store parse srv fid hc
    unfold get_cached_records
    rw [hc]
    cases hcc : srv.connClosed with
    | true => simp [hcc]
    | false =>
      rcases hdec : decodeRecords parse (exSelect store srv.lastId) with - | outs <;>
        simp [hcc, hdec]
  · intro store parse srv fid hc hcc
    unfold get_cached_records
    rw [hc]
    simp [hcc, exFetchOk]

/-- C2 witness: on the concrete three-record store, id 3 is in the
first jugo page and cannot reappear after the page is marked scored;
and in the exgestor variant the first materialization leaves the
connection closed, after which a post-expiry (cache-evicted) fetch
fails instead of materializing a second bucket. -/
theorem c2_no_redelivery_witness :
    (3 ∉ (selectUnscored (markScored exStoreC2
      ((selectUnscored exStoreC2).map (·.id)))).map (·.id)) ∧
    (get_cached_records exStoreC2 parseEmptyList ⟨0, none, false⟩ "b_1").1.connClosed
      = true ∧
    exFetchOk (get_cached_records exStoreC2 parseEmptyList ⟨1, none, true⟩ "b_2").2
      = false := by
  have h := c2_no_redelivery exStoreC2 3 (by decide)
  exact ⟨h.1,
    h.2.1 exStoreC2 parseEmptyList ⟨0, none, false⟩ "b_1" rfl,
    h.2.2 exStoreC2 parseEmptyList ⟨1, none, true⟩ "b_2" rfl rfl⟩
